import Mathlib

/-!
Shallow embedding of the shop-backend sales service (Go).

The repository contains several self-contained variants of the same
HTTP + PostgreSQL service.  Each variant is embedded in its own
namespace:

  * `MainA`  - the first program in `src/main.go` (routes `/sales`,
    `/sales/create`, `/sales/delete/`); no method checks, decode and
    scan errors handled as in that listing.
  * `MainB`  - the second program in `src/main.go` (LIMIT 100 listing,
    OPTIONS / POST checks, pre-allocated slice).
  * `Part0`  - `src/unnamed/part_000` (POST-checked create and
    body-decoded delete).
  * `Part1`  - `src/unnamed/part_001` (row scan errors ignored;
    `src/unnamed/part_003` has the same loop shape).
  * `Part4`  - `src/unnamed/part_004` (LIMIT 500 listing, explicit IST
    insert time, `/sales/reset` with TRUNCATE ... RESTART IDENTITY).

Machine abstractions: SQL timestamps are natural numbers (seconds),
`NUMERIC(10,2)` prices are integers (the code never computes with
them), and the JSON decoder / SQL driver results are passed in as
`Except` values, mirroring the `error` returns the Go code inspects
(or fails to inspect).
-/

namespace ShopBackend

/-- HTTP methods the handlers distinguish. -/
inductive Method where
  | GET
  | POST
  | OPTIONS
  | PUT
  | DELETE
deriving DecidableEq

/-- An HTTP response: status code and body text.  Header writing and
the trailing newline of `http.Error` / `json.Encoder` are elided. -/
structure HResp where
  status : Nat
  body : String
deriving DecidableEq

/-- A stored row of the `sales` table (superset of the columns used by
the variants; variants whose schema lacks `cell`/`warranty` keep them
as the empty string). -/
structure Row where
  saleId : Nat
  customerName : String
  productName : String
  cell : String
  warranty : String
  quantity : Int
  price : Int
  paymentMethod : String
  createdDate : Nat
deriving DecidableEq

/-- The zero value of the Go `Sale` struct, as a stored row. -/
def Row.zero : Row :=
  { saleId := 0, customerName := "", productName := "", cell := ""
    warranty := "", quantity := 0, price := 0, paymentMethod := ""
    createdDate := 0 }

/-- The `sales` table together with its `SERIAL` sequence counter. -/
structure Store where
  rows : List Row
  nextId : Nat
deriving DecidableEq

/-- A PostgreSQL `SERIAL` column starts at 1. -/
def initialNextId : Nat := 1

/-- A freshly created (or truncated) table. -/
def emptyStore : Store := { rows := [], nextId := initialNextId }

/-- The decoded JSON request body (union of the `Sale` structs of the
variants).  Defaults are the Go zero values, which is what
`json.Decode` leaves in fields absent from the body.  `createdDate`
models the caller-supplied timestamp: `none` stands for the empty
string / zero time, `some t` for a parseable timestamp `t`. -/
structure Sale where
  saleId : Nat := 0
  customerName : String := ""
  productName : String := ""
  cell : String := ""
  warranty : String := ""
  quantity : Int := 0
  price : Int := 0
  paymentMethod : String := ""
  createdDate : Option Nat := none
deriving DecidableEq

/-- Error text standing for a driver-level failure (`err.Error()` of a
failed `Exec`/`Query`). -/
def storeErr : String := "store error"

/-- Response written by `http.Error(w, "Method not allowed", 405)`. -/
def methodNotAllowed : HResp := { status := 405, body := "Method not allowed" }

/-- Default of the `payment_method` column in the schemas created by
`ensureTables` (part_000, part_002, part_004): `TEXT DEFAULT 'CASH'`. -/
def paymentMethodDefault : String := "CASH"

/-- A result row as produced by the driver before `rows.Scan`:
`ok r` when every column decodes into its destination field,
`error (e, pr)` when some column fails, where `e` is the scan error
text and `pr` is the destination struct as `Scan` left it. -/
abbrev RawRow := Except (String × Row) Row

/-- A Go slice, which distinguishes the nil slice from an allocated
empty one (`var s []Sale` vs `make([]Sale, 0)` / `[]Sale{}`);
`encoding/json` renders the former as `null`, the latter as `[]`. -/
inductive GoSlice (α : Type) where
  | nil : GoSlice α
  | arr : List α → GoSlice α
deriving DecidableEq

/-- Go `append`: the result of appending is never the nil slice. -/
def GoSlice.push : GoSlice α → α → GoSlice α
  | .nil, x => .arr [x]
  | .arr xs, x => .arr (xs ++ [x])

/-- Comma-join of encoded elements. -/
def encodeList (enc : α → String) : List α → String
  | [] => ""
  | [x] => enc x
  | x :: y :: rest => enc x ++ "," ++ encodeList enc (y :: rest)

/-- Rendering of `encoding/json` on a slice: `null` for the nil slice,
a bracketed array otherwise. -/
def GoSlice.encode (enc : α → String) : GoSlice α → String
  | .nil => "null"
  | .arr xs => "[" ++ encodeList enc xs ++ "]"

/-- A JSON string literal. -/
def jstr (s : String) : String := "\"" ++ s ++ "\""

/-- Wrap JSON object members in braces. -/
def wrapBraces (s : String) : String := "\x7b" ++ s ++ "\x7d"

/-- Body written by `json.NewEncoder(w).Encode(map[string]string{"message": m})`. -/
def jsonMsg (m : String) : String := wrapBraces ("\"message\":" ++ jstr m)

/-- Body written by the 500 branches of `MainB.getSales`, which wrap
the error text in a JSON object. -/
def jsonErr (e : String) : String := wrapBraces ("\"error\":" ++ jstr e)

/-- JSON encoding of a row of the first `main.go` variant, whose
struct has cell, warranty and paymentMethod and formats the timestamp
as a string (`created.Format(time.RFC3339)`, abstracted to the decimal
rendering of the model timestamp). -/
def encodeRowA (r : Row) : String :=
  wrapBraces ("\"saleId\":" ++ toString r.saleId
    ++ ",\"customerName\":" ++ jstr r.customerName
    ++ ",\"productName\":" ++ jstr r.productName
    ++ ",\"cell\":" ++ jstr r.cell
    ++ ",\"warranty\":" ++ jstr r.warranty
    ++ ",\"quantity\":" ++ toString r.quantity
    ++ ",\"price\":" ++ toString r.price
    ++ ",\"paymentMethod\":" ++ jstr r.paymentMethod
    ++ ",\"createdDate\":" ++ jstr (toString r.createdDate))

/-- JSON encoding of a row for the variants whose `Sale` struct has no
payment method (second `main.go` program, part_001, part_003). -/
def encodeRowB (r : Row) : String :=
  wrapBraces ("\"saleId\":" ++ toString r.saleId
    ++ ",\"customerName\":" ++ jstr r.customerName
    ++ ",\"productName\":" ++ jstr r.productName
    ++ ",\"quantity\":" ++ toString r.quantity
    ++ ",\"price\":" ++ toString r.price
    ++ ",\"createdDate\":" ++ jstr (toString r.createdDate))

/-- JSON encoding of a row for the variants whose `Sale` struct has a
payment method and a `time.Time` created date (part_000, part_004). -/
def encodeRowP (r : Row) : String :=
  wrapBraces ("\"saleId\":" ++ toString r.saleId
    ++ ",\"customerName\":" ++ jstr r.customerName
    ++ ",\"productName\":" ++ jstr r.productName
    ++ ",\"quantity\":" ++ toString r.quantity
    ++ ",\"price\":" ++ toString r.price
    ++ ",\"paymentMethod\":" ++ jstr r.paymentMethod
    ++ ",\"createdDate\":" ++ jstr (toString r.createdDate))

/-- Ordering used by `ORDER BY created_date DESC`: newest first. -/
def dateGe (a b : Row) : Prop := b.createdDate ≤ a.createdDate

instance : DecidableRel dateGe := fun a b => Nat.decLe b.createdDate a.createdDate

instance : IsTotal Row dateGe := ⟨fun a b => Nat.le_total b.createdDate a.createdDate⟩

instance : IsTrans Row dateGe := ⟨fun _ _ _ h1 h2 => Nat.le_trans h2 h1⟩

/-- Result set of `SELECT ... ORDER BY created_date DESC` over the
table (insertion sort refines the unspecified tie order of SQL). -/
def sortRows (l : List Row) : List Row := List.insertionSort dateGe l

/-- The `for rows.Next()` loop shared by the variants that check the
`rows.Scan` error: rows are appended in order and the first scan
failure aborts the whole listing with that error. -/
def loopAbort : List RawRow → GoSlice Row → Except String (GoSlice Row)
  | [], acc => .ok acc
  | .error ep :: _, _ => .error ep.1
  | .ok r :: rest, acc => loopAbort rest (acc.push r)

/-- The `for rows.Next()` loop of part_001 and part_003, which discard
the `rows.Scan` error: the destination struct is appended as `Scan`
left it and the loop continues. -/
def loopIgnore : List RawRow → GoSlice Row → GoSlice Row
  | [], acc => acc
  | .error ep :: rest, acc => loopIgnore rest (acc.push ep.2)
  | .ok r :: rest, acc => loopIgnore rest (acc.push r)

/-! ### MainA: the first program in `src/main.go` -/

namespace MainA

/-- Rows returned by the `getSales` query of the first `main.go`
program.  The handler receives the request's `from`/`to` query
parameters but its SQL mentions neither (no WHERE clause, no LIMIT):
they are ignored. -/
def listRows ( fromQ toQ : Option Nat) (st : Store) : List Row :=
  sortRows st.rows

/-- The body of `getSales` from the query result on: accumulate into a
nil slice, abort on a scan error with `http.Error(err, 500)`, then
`json.Encode` the slice. -/
def getSalesRaw (dbOk : Bool) (stream : List RawRow) : HResp :=
  if dbOk = false then { status := 500, body := storeErr }
  else
    match loopAbort stream GoSlice.nil with
    | .error e => { status := 500, body := e }
    | .ok sales => { status := 200, body := sales.encode encodeRowA }

/-- `getSales` of the first `main.go` program applied to a well-typed
table: every selected row scans successfully. -/
def getSales (dbOk : Bool) ( fromQ toQ : Option Nat) (st : Store) : HResp :=
  getSalesRaw dbOk ((listRows fromQ toQ st).map Except.ok)

/-- `createSale` of the first `main.go` program.  It performs no
method check, and the return value of `json.Decode` is discarded: on
invalid JSON the `Sale` keeps its zero value and the INSERT still
runs.  The INSERT supplies every column; `created_date` is
`CASE WHEN $8 = '' THEN CURRENT_TIMESTAMP ELSE $8::timestamp END`. -/
def createSale (method : Method) (body : Except String Sale) (dbOk : Bool)
    (now : Nat) (st : Store) : Store × HResp :=
  let sale : Sale := match body with | .ok s => s | .error _ => {}
  if dbOk = false then (st, { status := 500, body := storeErr })
  else
    let row : Row :=
      { saleId := st.nextId
        customerName := sale.customerName
        productName := sale.productName
        cell := sale.cell
        warranty := sale.warranty
        quantity := sale.quantity
        price := sale.price
        paymentMethod := sale.paymentMethod
        createdDate := sale.createdDate.getD now }
    ({ rows := st.rows ++ [row], nextId := st.nextId + 1 },
     { status := 200, body := wrapBraces ("\"status\":\"ok\"") })

/-- `deleteSale` of the first `main.go` program: no method check, the
id is the raw path suffix after `/sales/delete/` and is cast by the
store (`sale_id=$1`).  `idCast` is the result of that cast: `none`
when the suffix is not numeric, in which case the statement fails. -/
def deleteSale (idCast : Option Nat) (dbOk : Bool) (st : Store) : Store × HResp :=
  match idCast with
  | none => (st, { status := 500, body := storeErr })
  | some id =>
    if dbOk = false then (st, { status := 500, body := storeErr })
    else
      ({ st with rows := st.rows.filter (fun r => r.saleId != id) },
       { status := 200, body := wrapBraces ("\"deleted\":\"ok\"") })

end MainA

/-! ### MainB: the second program in `src/main.go` -/

namespace MainB

/-- Rows returned by the `getSales` query of the second `main.go`
program: `ORDER BY created_date DESC LIMIT 100`; query parameters are
not read. -/
def listRows ( fromQ toQ : Option Nat) (st : Store) : List Row :=
  (sortRows st.rows).take 100

/-- The body of the second `getSales`: the slice is pre-allocated with
`make([]Sale, 0)`, a scan error aborts with a 500 JSON error object. -/
def getSalesRaw (dbOk : Bool) (stream : List RawRow) : HResp :=
  if dbOk = false then { status := 500, body := jsonErr storeErr }
  else
    match loopAbort stream (GoSlice.arr []) with
    | .error e => { status := 500, body := jsonErr e }
    | .ok sales => { status := 200, body := sales.encode encodeRowB }

/-- `getSales` of the second `main.go` program on a well-typed table. -/
def getSales (dbOk : Bool) ( fromQ toQ : Option Nat) (st : Store) : HResp :=
  getSalesRaw dbOk ((listRows fromQ toQ st).map Except.ok)

/-- `createSale` of the second `main.go` program: OPTIONS preflight
returns bare 200, non-POST gets 405, a decode error gets 400 with the
error text.  The INSERT lists only customer_name, product_name,
quantity and price, so `payment_method` and `created_date` take the
schema defaults (`'CASH'` and the current time). -/
def createSale (method : Method) (body : Except String Sale) (dbOk : Bool)
    (now : Nat) (st : Store) : Store × HResp :=
  if method = Method.OPTIONS then (st, { status := 200, body := "" })
  else if method ≠ Method.POST then (st, methodNotAllowed)
  else
    match body with
    | .error e => (st, { status := 400, body := e })
    | .ok sale =>
      if dbOk = false then (st, { status := 500, body := storeErr })
      else
        let row : Row :=
          { saleId := st.nextId
            customerName := sale.customerName
            productName := sale.productName
            cell := "", warranty := ""
            quantity := sale.quantity
            price := sale.price
            paymentMethod := paymentMethodDefault
            createdDate := now }
        ({ rows := st.rows ++ [row], nextId := st.nextId + 1 },
         { status := 200, body := jsonMsg ("Sale added successfully") })

end MainB

/-! ### Part0: `src/unnamed/part_000` -/

namespace Part0

/-- Rows returned by the part_000 `getSales` query: ordered newest
first, no LIMIT, query parameters not read. -/
def listRows ( fromQ toQ : Option Nat) (st : Store) : List Row :=
  sortRows st.rows

/-- The body of the part_000 `getSales`: nil slice accumulator, scan
error aborts with `http.Error(err, 500)`. -/
def getSalesRaw (dbOk : Bool) (stream : List RawRow) : HResp :=
  if dbOk = false then { status := 500, body := storeErr }
  else
    match loopAbort stream GoSlice.nil with
    | .error e => { status := 500, body := e }
    | .ok sales => { status := 200, body := sales.encode encodeRowP }

/-- `getSales` of part_000 on a well-typed table. -/
def getSales (dbOk : Bool) ( fromQ toQ : Option Nat) (st : Store) : HResp :=
  getSalesRaw dbOk ((listRows fromQ toQ st).map Except.ok)

/-- `createSale` of part_000: non-POST gets 405 (there is no OPTIONS
branch), a decode error gets 400 with the error text; the INSERT
supplies payment_method from the body and
`NOW() AT TIME ZONE 'Asia/Kolkata'` as the created date. -/
def createSale (method : Method) (body : Except String Sale) (dbOk : Bool)
    (now : Nat) (st : Store) : Store × HResp :=
  if method ≠ Method.POST then (st, methodNotAllowed)
  else
    match body with
    | .error e => (st, { status := 400, body := e })
    | .ok sale =>
      if dbOk = false then (st, { status := 500, body := storeErr })
      else
        let row : Row :=
          { saleId := st.nextId
            customerName := sale.customerName
            productName := sale.productName
            cell := "", warranty := ""
            quantity := sale.quantity
            price := sale.price
            paymentMethod := sale.paymentMethod
            createdDate := now }
        ({ rows := st.rows ++ [row], nextId := st.nextId + 1 },
         { status := 200, body := jsonMsg ("Sale added") })

/-- The decoded body of `POST /sales/delete` in part_000. -/
structure DeleteReq where
  saleId : Nat
deriving DecidableEq

/-- `deleteSale` of part_000: non-POST gets 405, a decode error gets
400, then `DELETE FROM sales WHERE sale_id=$1`; the handler reports
success whether or not any row matched (`RowsAffected` is never
consulted). -/
def deleteSale (method : Method) (body : Except String DeleteReq) (dbOk : Bool)
    (st : Store) : Store × HResp :=
  if method ≠ Method.POST then (st, methodNotAllowed)
  else
    match body with
    | .error e => (st, { status := 400, body := e })
    | .ok req =>
      if dbOk = false then (st, { status := 500, body := storeErr })
      else
        ({ st with rows := st.rows.filter (fun r => r.saleId != req.saleId) },
         { status := 200, body := jsonMsg ("Sale deleted successfully") })

end Part0

/-! ### Part1: `src/unnamed/part_001` -/

namespace Part1

/-- Rows returned by the part_001 `getSales` query: ordered newest
first, no LIMIT. -/
def listRows ( fromQ toQ : Option Nat) (st : Store) : List Row :=
  sortRows st.rows

/-- The body of the part_001 `getSales`: the return value of
`rows.Scan` is discarded, so every raw row lands in the slice (as
`Scan` left it) and the listing always reaches the 200 encode;
part_003 has the same loop shape. -/
def getSalesRaw (dbOk : Bool) (stream : List RawRow) : HResp :=
  if dbOk = false then { status := 500, body := storeErr }
  else { status := 200, body := (loopIgnore stream GoSlice.nil).encode encodeRowB }

/-- `getSales` of part_001 on a well-typed table. -/
def getSales (dbOk : Bool) ( fromQ toQ : Option Nat) (st : Store) : HResp :=
  getSalesRaw dbOk ((listRows fromQ toQ st).map Except.ok)

end Part1

/-! ### Part4: `src/unnamed/part_004` -/

namespace Part4

/-- Rows returned by the part_004 `getSales` query:
`ORDER BY created_date DESC LIMIT 500`; query parameters not read. -/
def listRows ( fromQ toQ : Option Nat) (st : Store) : List Row :=
  (sortRows st.rows).take 500

/-- The body of the part_004 `getSales`: slice pre-allocated with
`[]Sale{}`, scan error aborts with `http.Error(err, 500)`. -/
def getSalesRaw (dbOk : Bool) (stream : List RawRow) : HResp :=
  if dbOk = false then { status := 500, body := storeErr }
  else
    match loopAbort stream (GoSlice.arr []) with
    | .error e => { status := 500, body := e }
    | .ok sales => { status := 200, body := sales.encode encodeRowP }

/-- `getSales` of part_004 on a well-typed table. -/
def getSales (dbOk : Bool) ( fromQ toQ : Option Nat) (st : Store) : HResp :=
  getSalesRaw dbOk ((listRows fromQ toQ st).map Except.ok)

/-- `createSale` of part_004: OPTIONS preflight returns bare 200,
non-POST gets 405, decode error gets 400.  The INSERT lists every
column including payment_method (taken from the body, so the schema
default never applies) and created_date, which is always the server's
current IST time `istNow` - the decoded `CreatedDate` field is never
read. -/
def createSale (method : Method) (body : Except String Sale) (dbOk : Bool)
    (istNow : Nat) (st : Store) : Store × HResp :=
  if method = Method.OPTIONS then (st, { status := 200, body := "" })
  else if method ≠ Method.POST then (st, methodNotAllowed)
  else
    match body with
    | .error e => (st, { status := 400, body := e })
    | .ok sale =>
      if dbOk = false then (st, { status := 500, body := storeErr })
      else
        let row : Row :=
          { saleId := st.nextId
            customerName := sale.customerName
            productName := sale.productName
            cell := "", warranty := ""
            quantity := sale.quantity
            price := sale.price
            paymentMethod := sale.paymentMethod
            createdDate := istNow }
        ({ rows := st.rows ++ [row], nextId := st.nextId + 1 },
         { status := 200, body := jsonMsg ("Sale added successfully") })

/-- `resetSales` of part_004: non-POST gets 405, otherwise
`TRUNCATE TABLE sales RESTART IDENTITY` empties the table and resets
the `SERIAL` sequence to its initial value. -/
def resetSales (method : Method) (dbOk : Bool) (st : Store) : Store × HResp :=
  if method ≠ Method.POST then (st, methodNotAllowed)
  else if dbOk = false then (st, { status := 500, body := storeErr })
  else
    ({ rows := [], nextId := initialNextId },
     { status := 200, body := jsonMsg ("All sales deleted & ID reset") })

end Part4

/-! ### Claim theorems -/

/-- C1 counterexample: in the first `main.go` program a
`POST /sales/create` whose body fails to decode is answered with 200,
not 400, and a (zero-valued) row is inserted: the decode error of
`json.Decode` is discarded and the INSERT still runs. -/
theorem C1_counterexample :
    (MainA.createSale Method.POST (Except.error ("unexpected end of JSON input"))
        true 7 emptyStore).2.status = 200
    ∧ (MainA.createSale Method.POST (Except.error ("unexpected end of JSON input"))
        true 7 emptyStore).1.rows ≠ emptyStore.rows := by
  constructor
  · rfl
  · decide

/-- C1 (amended): in the variants that check the decode error -
part_000 here, the cited one - a `POST /sales/create` whose body is
not valid JSON is answered with 400 carrying the decode error text and
the sales table is unchanged; the first `main.go` program instead
discards the decode error and inserts a zero-valued row. -/
theorem C1_decode_failure (e : String) (dbOk : Bool) (now : Nat) (st : Store) :
    Part0.createSale Method.POST (Except.error e) dbOk now st
      = (st, { status := 400, body := e }) := rfl

/-- C2 counterexample: in the first `main.go` program `createSale`
never checks the HTTP method, so a `GET /sales/create` with a decoding
body is answered 200 (not 405) and a row is inserted. -/
theorem C2_counterexample :
    (MainA.createSale Method.GET (Except.ok { customerName := "Asha" })
        true 7 emptyStore).2.status = 200
    ∧ (MainA.createSale Method.GET (Except.ok { customerName := "Asha" })
        true 7 emptyStore).1.rows.length = 1 := by
  constructor
  · rfl
  · rfl

/-- C2 (amended): in the method-checking handlers (the second
`main.go` `createSale`, part_000 `createSale` and part_000
`deleteSale`) a request whose method is neither POST nor OPTIONS is
answered 405 `Method not allowed` and the store is untouched; the
first `main.go` program checks no methods and runs its statement for
any verb. -/
theorem C2_method_mismatch (m : Method) (hp : m ≠ Method.POST)
    (ho : m ≠ Method.OPTIONS) (b : Except String Sale)
    (d : Except String Part0.DeleteReq) (dbOk : Bool) (now : Nat) (st : Store) :
    MainB.createSale m b dbOk now st = (st, methodNotAllowed)
    ∧ Part0.createSale m b dbOk now st = (st, methodNotAllowed)
    ∧ Part0.deleteSale m d dbOk st = (st, methodNotAllowed) := by
  cases m with
  | POST => exact absurd rfl hp
  | OPTIONS => exact absurd rfl ho
  | GET => exact ⟨rfl, rfl, rfl⟩
  | PUT => exact ⟨rfl, rfl, rfl⟩
  | DELETE => exact ⟨rfl, rfl, rfl⟩

/-- C2 witness: the amended method-mismatch theorem applied to a GET
request on a concrete store. -/
theorem C2_method_mismatch_witness :
    (Method.GET ≠ Method.POST ∧ Method.GET ≠ Method.OPTIONS)
    ∧ (MainB.createSale Method.GET (Except.ok {}) true 7 emptyStore
          = (emptyStore, methodNotAllowed)
        ∧ Part0.createSale Method.GET (Except.ok {}) true 7 emptyStore
          = (emptyStore, methodNotAllowed)
        ∧ Part0.deleteSale Method.GET (Except.ok ⟨3⟩) true emptyStore
          = (emptyStore, methodNotAllowed)) :=
  ⟨⟨by decide, by decide⟩,
   C2_method_mismatch Method.GET (by decide) (by decide)
     (Except.ok {}) (Except.ok ⟨3⟩) true 7 emptyStore⟩

/-- C3 counterexample: no `getSales` builds a filtered query, so a
request with `from`/`to` query parameters still receives rows whose
created date lies outside the inclusive range: with `from = 100`,
`to = 200` the sole row, dated 10, is returned. -/
theorem C3_counterexample :
    MainA.listRows (some 100) (some 200)
        { rows := [{ saleId := 1, customerName := "c", productName := "p"
                     cell := "", warranty := "", quantity := 1, price := 1
                     paymentMethod := "CASH", createdDate := 10 }], nextId := 2 }
      = [{ saleId := 1, customerName := "c", productName := "p"
           cell := "", warranty := "", quantity := 1, price := 1
           paymentMethod := "CASH", createdDate := 10 }]
    ∧ ¬(100 ≤ (10 : Nat) ∧ (10 : Nat) ≤ 200) := by
  constructor
  · rfl
  · decide

/-- C3 (amended): the `from`/`to` query parameters are ignored by
every listing - the SQL of `getSales` has no WHERE clause - so the
result set is identical for any values of the parameters (and equal to
the unfiltered listing). -/
theorem C3_filter_ignored (f t f2 t2 : Option Nat) (st : Store) :
    MainA.listRows f t st = MainA.listRows f2 t2 st
    ∧ Part4.listRows f t st = Part4.listRows f2 t2 st
    ∧ MainA.listRows f t st = sortRows st.rows := ⟨rfl, rfl, rfl⟩

/-- C4 counterexample: in part_004 a Create whose JSON omits
`paymentMethod` decodes it as the empty string, and the INSERT lists
the `payment_method` column explicitly, so the stored row carries the
empty string, not `CASH`: the schema default never applies. -/
theorem C4_counterexample :
    (Part4.createSale Method.POST
        (Except.ok { customerName := "A", productName := "B", quantity := 1, price := 5 })
        true 9 emptyStore).1.rows.map (fun r => r.paymentMethod) = [""]
    ∧ ("" : String) ≠ "CASH" := by
  constructor
  · rfl
  · decide

/-- C4 (amended): when `paymentMethod` is omitted from the body (its
decoded value is the empty string), the variants whose INSERT lists
the `payment_method` column (part_004, the first `main.go` program)
store the empty string; the `'CASH'` schema default applies only to an
INSERT that omits the column, as in the second `main.go` program. -/
theorem C4_payment_method_default (s : Sale) (h : s.paymentMethod = "")
    (now : Nat) (st : Store) :
    (Part4.createSale Method.POST (Except.ok s) true now st).1.rows.map
        (fun r => r.paymentMethod)
      = st.rows.map (fun r => r.paymentMethod) ++ [""]
    ∧ (MainA.createSale Method.POST (Except.ok s) true now st).1.rows.map
        (fun r => r.paymentMethod)
      = st.rows.map (fun r => r.paymentMethod) ++ [""]
    ∧ (MainB.createSale Method.POST (Except.ok s) true now st).1.rows.map
        (fun r => r.paymentMethod)
      = st.rows.map (fun r => r.paymentMethod) ++ ["CASH"] := by
  refine ⟨?_, ?_, ?_⟩ <;>
    simp [Part4.createSale, MainA.createSale, MainB.createSale,
      paymentMethodDefault, h]

/-- C4 witness: the amended payment-method theorem applied to a body
that omits `paymentMethod`, on the empty store. -/
theorem C4_payment_method_default_witness :
    (Sale.paymentMethod { customerName := "A" } = "")
    ∧ ((Part4.createSale Method.POST (Except.ok { customerName := "A" })
          true 9 emptyStore).1.rows.map (fun r => r.paymentMethod)
        = emptyStore.rows.map (fun r => r.paymentMethod) ++ [""]
      ∧ (MainA.createSale Method.POST (Except.ok { customerName := "A" })
          true 9 emptyStore).1.rows.map (fun r => r.paymentMethod)
        = emptyStore.rows.map (fun r => r.paymentMethod) ++ [""]
      ∧ (MainB.createSale Method.POST (Except.ok { customerName := "A" })
          true 9 emptyStore).1.rows.map (fun r => r.paymentMethod)
        = emptyStore.rows.map (fun r => r.paymentMethod) ++ ["CASH"]) :=
  ⟨rfl, C4_payment_method_default { customerName := "A" } rfl 9 emptyStore⟩

/-- A table holding 501 rows, one more than the largest observed cap. -/
def bigStore : Store :=
  { rows := (List.range 501).map (fun i =>
      { saleId := i + 1, customerName := "c", productName := "p", cell := ""
        warranty := "", quantity := 1, price := 1, paymentMethod := "CASH"
        createdDate := 0 }),
    nextId := 502 }

/-- C5 counterexample: the `getSales` of the first `main.go` program
has no LIMIT clause, so on a table of 501 rows the unfiltered listing
returns all 501 of them, exceeding every cap in the claimed 100-500
range. -/
theorem C5_counterexample :
    500 < (MainA.listRows none none bigStore).length := by
  have h : (MainA.listRows none none bigStore).length = bigStore.rows.length :=
    (List.perm_insertionSort dateGe bigStore.rows).length_eq
  rw [h]
  simp [bigStore]

/-- C5 (amended): the capped listings return at most their LIMIT - 100
in the second `main.go` program, 500 in part_004 - and are ordered by
created date descending (newest first); the first `main.go` program
(and parts 000 and 001) return the full table, still newest first. -/
theorem C5_cap_and_order ( fromQ toQ : Option Nat) (st : Store) :
    (MainB.listRows fromQ toQ st).length ≤ 100
    ∧ List.Sorted dateGe (MainB.listRows fromQ toQ st)
    ∧ (Part4.listRows fromQ toQ st).length ≤ 500
    ∧ List.Sorted dateGe (Part4.listRows fromQ toQ st)
    ∧ (MainA.listRows fromQ toQ st).length = st.rows.length
    ∧ List.Sorted dateGe (MainA.listRows fromQ toQ st) := by
  refine ⟨?_, ?_, ?_, ?_, ?_, ?_⟩
  · exact List.length_take_le 100 (sortRows st.rows)
  · exact List.Pairwise.sublist (List.take_sublist 100 (sortRows st.rows))
      (List.sorted_insertionSort dateGe st.rows)
  · exact List.length_take_le 500 (sortRows st.rows)
  · exact List.Pairwise.sublist (List.take_sublist 500 (sortRows st.rows))
      (List.sorted_insertionSort dateGe st.rows)
  · exact (List.perm_insertionSort dateGe st.rows).length_eq
  · exact List.sorted_insertionSort dateGe st.rows

/-- Helper for C6: the abort-on-scan-error loop answers the first scan
failure of the stream with that row's error, whatever was accumulated
before it. -/
theorem loopAbort_first_error (pre : List Row) (e : String) (pr : Row)
    (rest : List RawRow) (acc : GoSlice Row) :
    loopAbort (pre.map Except.ok ++ Except.error (e, pr) :: rest) acc
      = Except.error e := by
  induction pre generalizing acc with
  | nil => rfl
  | cons x xs ih => exact ih (acc.push x)

/-- C6 counterexample: part_001 (like part_003) discards the result of
`rows.Scan`, so a listing whose single row fails to decode still
answers 200 with a one-element JSON array holding the zero-valued
struct - a partial, corrupt list is returned instead of an error. -/
theorem C6_counterexample :
    (Part1.getSalesRaw true
        [Except.error (("sql: Scan error on column index 4"), Row.zero)]).status = 200
    ∧ Part1.getSalesRaw true
        [Except.error (("sql: Scan error on column index 4"), Row.zero)]
      = { status := 200, body := "[" ++ encodeRowB Row.zero ++ "]" } := ⟨rfl, rfl⟩

/-- C6 (amended): in the variants that check `rows.Scan` (the first
`main.go` program, part_004, likewise part_000) the first scan failure
aborts the whole listing with a 500 carrying that error and no list is
returned; in part_001 (and part_003) the scan error is discarded and
the listing always answers 200 with a full-length list. -/
theorem C6_scan_failure (pre : List Row) (e : String) (pr : Row)
    (rest : List RawRow) :
    MainA.getSalesRaw true (pre.map Except.ok ++ Except.error (e, pr) :: rest)
      = { status := 500, body := e }
    ∧ Part4.getSalesRaw true (pre.map Except.ok ++ Except.error (e, pr) :: rest)
      = { status := 500, body := e }
    ∧ (Part1.getSalesRaw true
        (pre.map Except.ok ++ Except.error (e, pr) :: rest)).status = 200 := by
  refine ⟨?_, ?_, rfl⟩ <;>
    simp [MainA.getSalesRaw, Part4.getSalesRaw, loopAbort_first_error]

/-- C7 counterexample: part_004 `createSale` inserts the server's
current IST time as `created_date` and never reads the decoded
`CreatedDate` field, so a caller-supplied timestamp 50 is not stored:
with server time 100 the row carries 100. -/
theorem C7_counterexample :
    (Part4.createSale Method.POST (Except.ok { createdDate := some 50 })
        true 100 emptyStore).1.rows.map (fun r => r.createdDate) = [100]
    ∧ (100 : Nat) ≠ 50 := by
  constructor
  · rfl
  · decide

/-- C7 (amended): in the first `main.go` program the claim holds - an
empty `createdDate` stores the server's current time and a non-empty
parseable one stores the caller's value, via the CASE expression of
the INSERT; part_004 instead always stores the server's current IST
time, ignoring any caller-supplied value. -/
theorem C7_created_date (m : Method) (s : Sale) (t now : Nat) (st : Store) :
    (MainA.createSale m (Except.ok { s with createdDate := none })
        true now st).1.rows.map (fun r => r.createdDate)
      = st.rows.map (fun r => r.createdDate) ++ [now]
    ∧ (MainA.createSale m (Except.ok { s with createdDate := some t })
        true now st).1.rows.map (fun r => r.createdDate)
      = st.rows.map (fun r => r.createdDate) ++ [t]
    ∧ (Part4.createSale Method.POST (Except.ok s) true now st).1.rows.map
        (fun r => r.createdDate)
      = st.rows.map (fun r => r.createdDate) ++ [now] := by
  refine ⟨?_, ?_, ?_⟩ <;> simp [MainA.createSale, Part4.createSale]

/-- C8: deleting by id always reports success - `RowsAffected` is
never consulted, so a non-existent id still gets the success message -
a listing taken after the delete contains no row with that id, and the
delete is answered with a non-success status only when the store-level
statement fails.  Stated for part_000's `deleteSale` (and the
path-suffix delete of the first `main.go` program, whose suffix casts
to `id`). -/
theorem C8_delete_idempotent (st : Store) (id : Nat) :
    (Part0.deleteSale Method.POST (Except.ok ⟨id⟩) true st).2
      = { status := 200, body := jsonMsg ("Sale deleted successfully") }
    ∧ (MainA.deleteSale (some id) true st).2
      = { status := 200, body := wrapBraces ("\"deleted\":\"ok\"") }
    ∧ (∀ r ∈ Part0.listRows none none
          (Part0.deleteSale Method.POST (Except.ok ⟨id⟩) true st).1,
        r.saleId ≠ id)
    ∧ (∀ ok : Bool,
        ((Part0.deleteSale Method.POST (Except.ok ⟨id⟩) ok st).2.status = 200)
          ↔ ok = true) := by
  refine ⟨rfl, rfl, ?_, ?_⟩
  · intro r hr
    have hr2 : r ∈ st.rows.filter (fun x => x.saleId != id) :=
      (List.perm_insertionSort dateGe
        (st.rows.filter (fun x => x.saleId != id))).mem_iff.mp hr
    have hb := (List.mem_filter.mp hr2).2
    simpa using hb
  · intro ok
    cases ok <;> simp [Part0.deleteSale]

/-- A one-row table whose single row has id 2, for the C8 witness. -/
def storeWithTwo : Store :=
  { rows := [{ saleId := 2, customerName := "a", productName := "b"
               cell := "", warranty := "", quantity := 1, price := 1
               paymentMethod := "CASH", createdDate := 5 }],
    nextId := 3 }

/-- C8 witness: the delete theorem applied to id 2 on a one-row table
holding that id. -/
theorem C8_delete_idempotent_witness :
    (Part0.deleteSale Method.POST (Except.ok ⟨2⟩) true storeWithTwo).2
      = { status := 200, body := jsonMsg ("Sale deleted successfully") }
    ∧ (MainA.deleteSale (some 2) true storeWithTwo).2
      = { status := 200, body := wrapBraces ("\"deleted\":\"ok\"") }
    ∧ (∀ r ∈ Part0.listRows none none
          (Part0.deleteSale Method.POST (Except.ok ⟨2⟩) true storeWithTwo).1,
        r.saleId ≠ 2)
    ∧ (∀ ok : Bool,
        ((Part0.deleteSale Method.POST (Except.ok ⟨2⟩) ok storeWithTwo).2.status
            = 200) ↔ ok = true) :=
  C8_delete_idempotent storeWithTwo 2

/-- C9: `resetSales` of part_004 truncates the table - every row is
removed - and restarts the identity sequence, so a Create performed
immediately afterwards stores a row whose id is the initial
auto-increment value 1. -/
theorem C9_reset_restarts_identity (st : Store) (s : Sale) (now : Nat) :
    (Part4.resetSales Method.POST true st).1.rows = []
    ∧ (Part4.resetSales Method.POST true st).1.nextId = initialNextId
    ∧ (Part4.createSale Method.POST (Except.ok s) true now
          (Part4.resetSales Method.POST true st).1).1.rows.map (fun r => r.saleId)
      = [initialNextId] := ⟨rfl, rfl, rfl⟩

/-- C10: on an empty table the listings that accumulate into a
never-allocated nil slice (first `main.go` program, part_001, likewise
part_000) encode the JSON literal `null`, while the variants that
pre-allocate the slice (second `main.go` program, part_004) encode the
empty array `[]`. -/
theorem C10_empty_listing :
    MainA.getSales true none none emptyStore = { status := 200, body := "null" }
    ∧ Part1.getSales true none none emptyStore = { status := 200, body := "null" }
    ∧ Part0.getSales true none none emptyStore = { status := 200, body := "null" }
    ∧ MainB.getSales true none none emptyStore = { status := 200, body := "[]" }
    ∧ Part4.getSales true none none emptyStore = { status := 200, body := "[]" } :=
  ⟨rfl, rfl, rfl, rfl, rfl⟩

end ShopBackend
